import Mathlib

/-!
Verification development for the Sentinel grid-aggregation core
(`DataProcessor.cpp/.hpp`, `UnifiedGridRenderer.cpp`, `GridTypes.hpp`).

Times (`qint64` / `int64_t` milliseconds) are modelled as `Int`, prices,
quantities and liquidity (`double` / `float`) as `ℚ`, counters and sizes as
`Nat`.  The time-series aggregation engine is an external collaborator and is
modelled as an oracle of pure functions; signal emission and engine feeding are
modelled as an explicit event list returned next to the state.
-/

namespace Sentinel

/-- Price level of a sparse order book: a (price, quantity) pair. -/
structure PriceLevel where
  price : ℚ
  quantity : ℚ
deriving Repr, DecidableEq

/-- Modelled from the spec: sparse `OrderBookSnapshot` — instrument id,
timestamp, ordered bid and ask levels (the concrete `OrderBook` struct lives in
`TradeData.h`, outside the processing core sources). -/
structure OrderBook where
  product_id : String
  timestamp_ms : Int
  bids : List PriceLevel
  asks : List PriceLevel
deriving Repr, DecidableEq

/-- Modelled from the spec: a `Trade` event — instrument id, price, size,
aggressor side, timestamp (the concrete `Trade` struct lives in `TradeData.h`,
outside the processing core sources). -/
structure Trade where
  product_id : String
  price : ℚ
  size : ℚ
  isBuy : Bool
  timestamp_ms : Int
deriving Repr, DecidableEq

/-- Modelled from the spec: dense order-book representation — fixed-width
arrays of per-tick quantities indexed by tick offset from a minimum price (the
concrete `LiveOrderBook` lives in the data cache, outside the processing core
sources). -/
structure LiveOrderBook where
  minPrice : ℚ
  tickSize : ℚ
  bids : List ℚ
  asks : List ℚ
deriving Repr, DecidableEq

/-- Modelled from the spec: a per-price-level aggregated metric of an engine
time slice, carrying a non-zero-sample count and a displayable aggregate value
(the engine is an external collaborator, specified at its interface). -/
structure LiquidityLevelMetric where
  snapshotCount : Nat
  displayValue : ℚ
deriving Repr, DecidableEq

/-- Modelled from the spec: `LiquidityTimeSlice`, the engine-produced time
slice — start/end time, tick size, minimum tick index, per-tick aggregated
bid/ask metrics.  `getDisplayValue` at a tick is modelled by that tick's
`displayValue` field. -/
structure LiquidityTimeSlice where
  startTime_ms : Int
  endTime_ms : Int
  duration_ms : Int
  tickSize : ℚ
  minTick : Int
  bidMetrics : List LiquidityLevelMetric
  askMetrics : List LiquidityLevelMetric
deriving Repr, DecidableEq

/-- World-space grid cell, from `GridTypes.hpp` (`CellInstance`). -/
structure CellInstance where
  timeStart_ms : Int
  timeEnd_ms : Int
  priceMin : ℚ
  priceMax : ℚ
  liquidity : ℚ
  isBid : Bool
deriving Repr, DecidableEq

/-- Modelled from the spec: the viewport state (`GridViewState`, outside the
processing core sources) — visible time window, price window, a version
counter incremented on every mutation, auto-scroll, validity flag. -/
structure GridViewState where
  timeStart_ms : Int
  timeEnd_ms : Int
  minPrice : ℚ
  maxPrice : ℚ
  version : Nat
  autoScrollEnabled : Bool
  timeWindowInit : Bool
deriving Repr, DecidableEq

/-- Modelled from the spec: an invalid/uninitialized viewport suppresses all
aggregation; validity is established by the first `setViewport`. -/
def GridViewState.isTimeWindowValid (vs : GridViewState) : Bool :=
  vs.timeWindowInit

/-- Modelled from the spec: `setViewport` stores the bounds and increments the
version counter (every viewport mutation bumps the version). -/
def GridViewState.setViewport (vs : GridViewState) (ts te : Int) (pmin pmax : ℚ) :
    GridViewState :=
  { vs with timeStart_ms := ts, timeEnd_ms := te, minPrice := pmin, maxPrice := pmax,
            version := vs.version + 1, timeWindowInit := true }

/-- Modelled from the spec: `resetZoom` (used by `clearData`) returns the
viewport to the uninitialized state; as a mutation it bumps the version. -/
def GridViewState.resetZoom (vs : GridViewState) : GridViewState :=
  { vs with timeWindowInit := false, version := vs.version + 1 }

/-! ### Band selector (sparse-banding path of `onLiveOrderBookUpdated`) -/

/-- Absolute price of a tick index of the dense book. -/
def tickPrice (lb : LiveOrderBook) (idx : Nat) : ℚ :=
  lb.minPrice + (idx : ℚ) * lb.tickSize

/-- Best-bid tick index: scan the dense bid array from the highest index down,
stop at the first strictly positive quantity (`onLiveOrderBookUpdated`). -/
def bestBidIdx (lb : LiveOrderBook) : Option Nat :=
  (List.range lb.bids.length).reverse.find? (fun i => decide (0 < lb.bids.getD i 0))

/-- Best-ask tick index: scan the dense ask array from the lowest index up,
stop at the first strictly positive quantity (`onLiveOrderBookUpdated`). -/
def bestAskIdx (lb : LiveOrderBook) : Option Nat :=
  (List.range lb.asks.length).find? (fun i => decide (0 < lb.asks.getD i 0))

/-- Mid price of the dense book (`onLiveOrderBookUpdated`): the average of
best bid and best ask when both exist, otherwise whichever exists, otherwise
the center of the dense price range. -/
def denseMid (lb : LiveOrderBook) : ℚ :=
  match bestBidIdx lb, bestAskIdx lb with
  | some b, some a => (tickPrice lb b + tickPrice lb a) / 2
  | some b, none => tickPrice lb b
  | none, some a => tickPrice lb a
  | none, none => lb.minPrice + (lb.bids.length : ℚ) * lb.tickSize / 2

/-- Banding modes from `DataProcessor.hpp` (`BandMode`). -/
inductive BandMode where
  | FixedDollar
  | PercentMid
  | Ticks
deriving Repr, DecidableEq

/-- Half-band width by mode (`onLiveOrderBookUpdated`), floored to a minimum
positive value per mode. -/
def rawHalfBand (mode : BandMode) (bandValue mid tick : ℚ) : ℚ :=
  match mode with
  | BandMode.FixedDollar => max (1 / 1000000) bandValue
  | BandMode.PercentMid => max (1 / 1000000) (|mid| * bandValue)
  | BandMode.Ticks => max 1 bandValue * tick

/-- Half-band after the default fallback (100 when non-positive) and the clamp
to the available dense tick range. -/
def clampedHalfBand (lb : LiveOrderBook) (mode : BandMode) (bandValue mid : ℚ) : ℚ :=
  let hb0 := rawHalfBand mode bandValue mid lb.tickSize
  let hb1 := if hb0 ≤ 0 then 100 else hb0
  min hb1 ((max lb.bids.length lb.asks.length : ℚ) * lb.tickSize / 2)

/-- Lower scan index of the band: `max(0.0, floor((bandMin - minPrice)/tick))`
cast to an unsigned index. -/
def bandMinIndex (lb : LiveOrderBook) (bandMin : ℚ) : Nat :=
  (max 0 (Int.floor ((bandMin - lb.minPrice) / lb.tickSize))).toNat

/-- Upper scan bound of the band for a side of length `len`:
`min(len, ceil((bandMax - minPrice)/tick) + 1)` cast to an unsigned index. -/
def bandMaxIndex (lb : LiveOrderBook) (len : Nat) (bandMax : ℚ) : Nat :=
  (min (len : Int) (Int.ceil ((bandMax - lb.minPrice) / lb.tickSize) + 1)).toNat

/-- Bid band scan: indices from `maxIndex - 1` down to `minIndex`, emitting
only strictly positive quantities. -/
def scanBandBids (lb : LiveOrderBook) (minIndex maxIndex : Nat) : List PriceLevel :=
  ((List.range (maxIndex - minIndex)).map (fun j => maxIndex - 1 - j)).filterMap
    (fun idx =>
      let qty := lb.bids.getD idx 0
      if 0 < qty then some { price := tickPrice lb idx, quantity := qty } else none)

/-- Ask band scan: indices from `minIndex` up to `maxIndex - 1`, emitting only
strictly positive quantities. -/
def scanBandAsks (lb : LiveOrderBook) (minIndex maxIndex : Nat) : List PriceLevel :=
  ((List.range (maxIndex - minIndex)).map (fun j => minIndex + j)).filterMap
    (fun idx =>
      let qty := lb.asks.getD idx 0
      if 0 < qty then some { price := tickPrice lb idx, quantity := qty } else none)

/-- Bid levels produced by the band scan of `onLiveOrderBookUpdated`. -/
def bandBidsOf (mode : BandMode) (bandValue : ℚ) (lb : LiveOrderBook) : List PriceLevel :=
  let mid := denseMid lb
  let hb := clampedHalfBand lb mode bandValue mid
  scanBandBids lb (bandMinIndex lb (mid - hb)) (bandMaxIndex lb lb.bids.length (mid + hb))

/-- Ask levels produced by the band scan of `onLiveOrderBookUpdated`. -/
def bandAsksOf (mode : BandMode) (bandValue : ℚ) (lb : LiveOrderBook) : List PriceLevel :=
  let mid := denseMid lb
  let hb := clampedHalfBand lb mode bandValue mid
  scanBandAsks lb (bandMinIndex lb (mid - hb)) (bandMaxIndex lb lb.asks.length (mid + hb))

/-- The mid-centered banded sparse snapshot built by `onLiveOrderBookUpdated`,
including the top-of-book fallback for a side whose band scan came up empty. -/
def buildBandedSnapshot (mode : BandMode) (bandValue : ℚ) (productId : String)
    (now_ms : Int) (lb : LiveOrderBook) : OrderBook :=
  let bids :=
    match bandBidsOf mode bandValue lb, bestBidIdx lb with
    | [], some i => [{ price := tickPrice lb i, quantity := lb.bids.getD i 0 }]
    | bs, _ => bs
  let asks :=
    match bandAsksOf mode bandValue lb, bestAskIdx lb with
    | [], some i => [{ price := tickPrice lb i, quantity := lb.asks.getD i 0 }]
    | as_, _ => as_
  { product_id := productId, timestamp_ms := now_ms, bids := bids, asks := asks }

/-! ### Mid price of a sparse book (`initializeViewportFromOrderBook`) -/

/-- Best bid price of a sparse book: the first bid level (bids are ordered
price-descending). -/
def bestBidPriceOf (book : OrderBook) : Option ℚ :=
  book.bids.head?.map PriceLevel.price

/-- Best ask price of a sparse book: the first ask level (asks are ordered
price-ascending). -/
def bestAskPriceOf (book : OrderBook) : Option ℚ :=
  book.asks.head?.map PriceLevel.price

/-- Mid-price case analysis of the viewport bootstrap: average when both best
prices exist, the existing one when only one exists, the 100000 fallback when
neither exists. -/
def initMidPrice (bb ba : Option ℚ) : ℚ :=
  match bb, ba with
  | some b, some a => (b + a) / 2
  | some b, none => b
  | none, some a => a
  | none, none => 100000

/-! ### Dirty-flag update scheduler (`UnifiedGridRenderer::updatePaintNode`) -/

/-- The four work categories of the consumer-side refresh cycle. -/
inductive WorkKind where
  | geometry
  | append
  | material
  | transform
deriving Repr, DecidableEq

/-- The four dirty flags of `UnifiedGridRenderer`. -/
structure RendererFlags where
  geometryDirty : Bool
  appendPending : Bool
  materialDirty : Bool
  transformDirty : Bool
deriving Repr, DecidableEq

/-- Flag handling of one `updatePaintNode` cycle: the geometry flag exchange
always runs; the append flag is exchanged only when the geometry branch was not
taken (`else if`); material and transform are independent exchanges; a zero
width or height returns before touching any flag.  Returns the flags left
behind and the work stages run, in execution order. -/
def updatePaintNode (sizeValid isNewNode : Bool) (f : RendererFlags) :
    RendererFlags × List WorkKind :=
  if !sizeValid then (f, [])
  else
    let g := f.geometryDirty
    let f1 := { f with geometryDirty := false }
    let firstStage :=
      if g || isNewNode then (f1, [WorkKind.geometry])
      else
        let a := f1.appendPending
        let f1a := { f1 with appendPending := false }
        if a then (f1a, [WorkKind.append]) else (f1a, [])
    let f2 := firstStage.1
    let ws1 := firstStage.2
    let m := f2.materialDirty
    let f3 := { f2 with materialDirty := false }
    let ws2 := if m then ws1 ++ [WorkKind.material] else ws1
    let t := f3.transformDirty
    let f4 := { f3 with transformDirty := false }
    let ws3 := if t || isNewNode then ws2 ++ [WorkKind.transform] else ws2
    (f4, ws3)

/-! ### DataProcessor state and operations -/

/-- Events produced by a `DataProcessor` operation: snapshots fed to the
aggregation engine, slice/timeframe queries against it, and the Qt signals. -/
inductive DPEvent where
  | addOrderBookSnapshot (book : OrderBook)
  | querySlices (timeframe startT endT : Int)
  | suggestTf (startT endT : Int) (target : Nat)
  | dataUpdated
  | viewportInit
deriving Repr, DecidableEq

/-- The external time-series aggregation engine, as an oracle of pure
functions over its query interface. -/
structure LiquidityEngine where
  getVisibleSlices : Int → Int → Int → List LiquidityTimeSlice
  suggestTimeframe : Int → Int → Nat → Int

/-- The mutable state of a `DataProcessor` (`DataProcessor.hpp`), together
with the spec-modelled viewport it points to.  The function-static `lastBucket`
sampling clock of `captureOrderBookSnapshot` is carried as explicit state, as
the spec directs.  `connected` models whether the Qt signal connections are
still in place (severed by `stopProcessing`). -/
structure DPState where
  shuttingDown : Bool
  timerActive : Bool
  connected : Bool
  hasEngine : Bool
  viewState : Option GridViewState
  latestOrderBook : Option OrderBook
  hasValidOrderBook : Bool
  manualTimeframeSet : Bool
  manualTimerValid : Bool
  manualElapsed_ms : Int
  currentTimeframe_ms : Int
  visibleCells : List CellInstance
  publishedCells : Option (List CellInstance)
  lastProcessedTime : Int
  lastViewportVersion : Nat
  processedTimeRanges : List (Int × Int)
  lastBucket : Int
deriving Repr, DecidableEq

/-- Emit a signal only while the object's signal connections are intact. -/
def emitIf (connected : Bool) (e : DPEvent) : List DPEvent :=
  if connected then [e] else []

/-- Value-keyed insertion into the processed-range tracking set
(`std::unordered_set<SliceTimeRange>` keyed by the (start, end) value pair). -/
def insertRange (rs : List (Int × Int)) (r : Int × Int) : List (Int × Int) :=
  if r ∈ rs then rs else r :: rs

/-- The (startTime, endTime) value pair identifying a slice
(`DataProcessor::SliceTimeRange`). -/
def sliceRange (slice : LiquidityTimeSlice) : Int × Int :=
  (slice.startTime_ms, slice.endTime_ms)

/-- `DataProcessor::createLiquidityCell`: cull by liquidity, viewport price
bounds and viewport time window, then append one cell whose time extent falls
back to `start + max(timeframe, 1)` when the slice's end does not exceed its
start. -/
def createLiquidityCell (vs : GridViewState) (currentTimeframe_ms : Int)
    (slice : LiquidityTimeSlice) (price liquidity : ℚ) (isBid : Bool)
    (cells : List CellInstance) : List CellInstance :=
  if liquidity ≤ 0 then cells
  else if price < vs.minPrice ∨ price > vs.maxPrice then cells
  else if slice.endTime_ms < vs.timeStart_ms ∨ slice.startTime_ms > vs.timeEnd_ms then cells
  else
    cells ++
      [{ timeStart_ms := slice.startTime_ms,
         timeEnd_ms :=
           if slice.startTime_ms < slice.endTime_ms then slice.endTime_ms
           else slice.startTime_ms + max currentTimeframe_ms 1,
         priceMin := price - slice.tickSize / 2,
         priceMax := price + slice.tickSize / 2,
         liquidity := liquidity,
         isBid := isBid }]

/-- One side of `DataProcessor::createCellsFromLiquiditySlice`: walk the
tick-indexed metrics, keep levels with a positive sample count whose derived
price lies within the viewport price bounds, and hand them to
`createLiquidityCell`. -/
def sideCells (vs : GridViewState) (tf : Int) (slice : LiquidityTimeSlice)
    (isBid : Bool) (metrics : List LiquidityLevelMetric)
    (cells : List CellInstance) : List CellInstance :=
  metrics.enum.foldl
    (fun cs im =>
      if 0 < im.2.snapshotCount then
        let price := (slice.minTick : ℚ) * slice.tickSize + (im.1 : ℚ) * slice.tickSize
        if vs.minPrice ≤ price ∧ price ≤ vs.maxPrice then
          createLiquidityCell vs tf slice price im.2.displayValue isBid cs
        else cs
      else cs)
    cells

/-- `DataProcessor::createCellsFromLiquiditySlice`: bid levels first, then ask
levels. -/
def createCellsFromLiquiditySlice (vs : GridViewState) (tf : Int)
    (slice : LiquidityTimeSlice) (cells : List CellInstance) : List CellInstance :=
  sideCells vs tf slice false slice.askMetrics
    (sideCells vs tf slice true slice.bidMetrics cells)

/-- Full-rebuild handling of one slice in `updateVisibleCells`: process it
unconditionally, record its range, advance the high-water mark. -/
def processSliceRebuild (vs : GridViewState) (s : DPState)
    (slice : LiquidityTimeSlice) : DPState :=
  let cs := createCellsFromLiquiditySlice vs s.currentTimeframe_ms slice s.visibleCells
  let s1 := { s with visibleCells := cs }
  let s2 := { s1 with processedTimeRanges := insertRange s1.processedTimeRanges (sliceRange slice) }
  if s2.lastProcessedTime < slice.endTime_ms then
    { s2 with lastProcessedTime := slice.endTime_ms }
  else s2

/-- Append-mode handling of one slice in `updateVisibleCells`: process it only
when its (start, end) value pair is not already tracked, then advance the
high-water mark. -/
def processSliceAppend (vs : GridViewState) (s : DPState)
    (slice : LiquidityTimeSlice) : DPState :=
  let r := sliceRange slice
  let cs := createCellsFromLiquiditySlice vs s.currentTimeframe_ms slice s.visibleCells
  let s1 :=
    if r ∈ s.processedTimeRanges then s
    else { s with visibleCells := cs, processedTimeRanges := insertRange s.processedTimeRanges r }
  if s1.lastProcessedTime < slice.endTime_ms then
    { s1 with lastProcessedTime := slice.endTime_ms }
  else s1

/-- The manual-override condition of `updateVisibleCells`: auto-suggest when
no manual timeframe is set, or when the manual override's 10 s timeout has
elapsed. -/
def autoTfBranch (s : DPState) : Bool :=
  !s.manualTimeframeSet || (s.manualTimerValid && decide (10000 < s.manualElapsed_ms))

/-- The timeframe `updateVisibleCells` ends up querying with: the engine's
suggestion for the visible window and a 2000-cell budget on the auto branch,
the current timeframe otherwise. -/
def activeTimeframeOf (eng : LiquidityEngine) (vs : GridViewState) (s : DPState) : Int :=
  if autoTfBranch s && s.hasEngine then
    eng.suggestTimeframe vs.timeStart_ms vs.timeEnd_ms 2000
  else s.currentTimeframe_ms

/-- Timeframe-selection phase of `updateVisibleCells`: adopt the engine's
suggestion when it differs from the current timeframe; returns the updated
state and the active timeframe. -/
def uvcTimeframe (eng : LiquidityEngine) (vs : GridViewState) (s : DPState) :
    DPState × Int :=
  if autoTfBranch s then
    if s.hasEngine then
      let optimal := eng.suggestTimeframe vs.timeStart_ms vs.timeEnd_ms 2000
      if optimal = s.currentTimeframe_ms then (s, s.currentTimeframe_ms)
      else ({ s with currentTimeframe_ms := optimal }, optimal)
    else (s, s.currentTimeframe_ms)
  else (s, s.currentTimeframe_ms)

/-- `LLONG_MAX`, the unbounded upper query bound of the auto-fit recovery. -/
def LLONG_MAX : Int := 9223372036854775807

/-- Query-and-auto-fit phase of `updateVisibleCells`: query the visible
window; when it comes back empty and auto-scroll is enabled, query the
unbounded range, and if data exists more than 60 s before the viewport start,
snap the viewport time bounds to the newest data ±30 s (price bounds kept) and
retry the query once.  Returns the viewport to cull against, the state (with
the possibly adjusted viewport), the slices to process, and the engine queries
made. -/
def uvcQueryAndFix (eng : LiquidityEngine) (tf : Int) (vs : GridViewState)
    (s : DPState) :
    GridViewState × DPState × List LiquidityTimeSlice × List DPEvent :=
  let slices0 := eng.getVisibleSlices tf vs.timeStart_ms vs.timeEnd_ms
  let q0 := [DPEvent.querySlices tf vs.timeStart_ms vs.timeEnd_ms]
  if slices0.isEmpty then
    if vs.autoScrollEnabled then
      let allSlices := eng.getVisibleSlices tf 0 LLONG_MAX
      let q1 := q0 ++ [DPEvent.querySlices tf 0 LLONG_MAX]
      match allSlices.getLast? with
      | some lastSlice =>
        let newestTime := lastSlice.endTime_ms
        if 60000 < vs.timeStart_ms - newestTime then
          let newStart := newestTime - 30000
          let newEnd := newestTime + 30000
          let vs1 := vs.setViewport newStart newEnd vs.minPrice vs.maxPrice
          (vs1, { s with viewState := some vs1 },
           eng.getVisibleSlices tf newStart newEnd,
           q1 ++ [DPEvent.querySlices tf newStart newEnd])
        else (vs, s, slices0, q1)
      | none => (vs, s, slices0, q1)
    else (vs, s, slices0, q0)
  else (vs, s, slices0, q0)

/-- Slice-walk phase of `updateVisibleCells`: on a full rebuild clear the
tracking set and process every slice; otherwise process only slices with new
time ranges. -/
def uvcProcess (vs : GridViewState) (fullRebuild : Bool)
    (slices : List LiquidityTimeSlice) (s : DPState) : DPState :=
  if fullRebuild then
    slices.foldl (processSliceRebuild vs) { s with processedTimeRanges := [] }
  else
    slices.foldl (processSliceAppend vs) s

/-- `DataProcessor::updateVisibleCells`: shutdown and viewport-validity
guards, viewport-version gating (full rebuild on change), timeframe selection,
slice query with auto-fit recovery, incremental slice walk, and a publish that
is skipped when nothing changed. -/
def updateVisibleCells (eng : LiquidityEngine) (s : DPState) :
    DPState × List DPEvent :=
  if s.shuttingDown then (s, [])
  else
    match s.viewState with
    | none => (s, [])
    | some vs0 =>
      if !vs0.isTimeWindowValid then (s, [])
      else
        let viewportChanged : Bool := decide (vs0.version ≠ s.lastViewportVersion)
        let s1 :=
          if viewportChanged then
            { s with visibleCells := [], processedTimeRanges := [],
                     lastProcessedTime := 0, lastViewportVersion := vs0.version }
          else s
        let tfr := uvcTimeframe eng vs0 s1
        let s2 := tfr.1
        let activeTimeframe := tfr.2
        let evs0 :=
          if autoTfBranch s1 && s1.hasEngine then
            [DPEvent.suggestTf vs0.timeStart_ms vs0.timeEnd_ms 2000]
          else []
        if s2.hasEngine then
          let qf := uvcQueryAndFix eng activeTimeframe vs0 s2
          let vsCur := qf.1
          let s3 := qf.2.1
          let slices := qf.2.2.1
          let qs := qf.2.2.2
          let beforeSize := s3.visibleCells.length
          let fullRebuild := viewportChanged || decide (s3.lastProcessedTime = 0)
          let s4 := uvcProcess vsCur fullRebuild slices s3
          let changed := viewportChanged || decide (s4.visibleCells.length ≠ beforeSize)
          if changed then
            ({ s4 with publishedCells := some s4.visibleCells },
             evs0 ++ qs ++ emitIf s4.connected DPEvent.dataUpdated)
          else (s4, evs0 ++ qs)
        else
          ({ s2 with publishedCells := some s2.visibleCells },
           evs0 ++ emitIf s2.connected DPEvent.dataUpdated)

/-- `DataProcessor::captureOrderBookSnapshot`: align to the 100 ms bucket
clock; on the first sample seed the clock with one snapshot; afterwards feed
one snapshot of the latest book per elapsed bucket boundary up to the current
bucket, then recompute visible cells. -/
def captureOrderBookSnapshot (eng : LiquidityEngine) (nowMs : Int) (s : DPState) :
    DPState × List DPEvent :=
  if s.shuttingDown then (s, [])
  else if !s.hasEngine then (s, [])
  else
    match s.latestOrderBook with
    | none => (s, [])
    | some book =>
      let bucketStart := nowMs / 100 * 100
      if s.lastBucket = 0 then
        let ob := { book with timestamp_ms := bucketStart }
        let s1 := { s with lastBucket := bucketStart }
        let r := updateVisibleCells eng s1
        (r.1, DPEvent.addOrderBookSnapshot ob :: r.2)
      else if s.lastBucket < bucketStart then
        let count := ((bucketStart - s.lastBucket) / 100).toNat
        let snaps := (List.range count).map
          (fun j => { book with timestamp_ms := s.lastBucket + 100 * ((j : Int) + 1) })
        let s1 := { s with lastBucket := s.lastBucket + 100 * (count : Int) }
        let r := updateVisibleCells eng s1
        (r.1, snaps.map DPEvent.addOrderBookSnapshot ++ r.2)
      else (s, [])

/-- `DataProcessor::initializeViewportFromTrade`: bootstrap the viewport to a
±30 s time window around the trade and a ±100 price window around its price,
then signal viewport initialization. -/
def initViewportFromTrade (t : Trade) (s : DPState) : DPState × List DPEvent :=
  match s.viewState with
  | none => (s, [])
  | some vs =>
    let vs1 := vs.setViewport (t.timestamp_ms - 30000) (t.timestamp_ms + 30000)
      (t.price - 100) (t.price + 100)
    ({ s with viewState := some vs1 }, emitIf s.connected DPEvent.viewportInit)

/-- `DataProcessor::onTradeReceived`: drop on shutdown or empty instrument id;
bootstrap the viewport from the trade when it is not yet valid. -/
def onTradeReceived (t : Trade) (s : DPState) : DPState × List DPEvent :=
  if s.shuttingDown then (s, [])
  else if t.product_id = "" then (s, [])
  else
    match s.viewState with
    | some vs =>
      if !vs.isTimeWindowValid then initViewportFromTrade t s else (s, [])
    | none => (s, [])

/-- `DataProcessor::initializeViewportFromOrderBook`: bootstrap the viewport
to a ±30 s time window around the book timestamp and a ±100 price window
around the book's mid price, then signal viewport initialization. -/
def initViewportFromOrderBook (book : OrderBook) (s : DPState) :
    DPState × List DPEvent :=
  match s.viewState with
  | none => (s, [])
  | some vs =>
    let mid := initMidPrice (bestBidPriceOf book) (bestAskPriceOf book)
    let vs1 := vs.setViewport (book.timestamp_ms - 30000) (book.timestamp_ms + 30000)
      (mid - 100) (mid + 100)
    ({ s with viewState := some vs1 }, emitIf s.connected DPEvent.viewportInit)

/-- `DataProcessor::onOrderBookUpdated`: drop on shutdown, a null book, an
empty instrument id or an empty side; otherwise retain the book as latest,
bootstrap the viewport if needed, and recompute visible cells. -/
def onOrderBookUpdated (eng : LiquidityEngine) (book? : Option OrderBook)
    (s : DPState) : DPState × List DPEvent :=
  if s.shuttingDown then (s, [])
  else
    match book? with
    | none => (s, [])
    | some book =>
      if book.product_id = "" ∨ book.bids = [] ∨ book.asks = [] then (s, [])
      else
        let sA := { s with latestOrderBook := some book, hasValidOrderBook := true }
        let ri :=
          match sA.viewState with
          | some vs =>
            if !vs.isTimeWindowValid then initViewportFromOrderBook book sA
            else (sA, [])
          | none => (sA, [])
        let r := updateVisibleCells eng ri.1
        (r.1, ri.2 ++ r.2)

/-- `DataProcessor::clearData`: drop the latest book, reset the viewport zoom,
clear the published snapshot, and signal a data update. -/
def clearData (s : DPState) : DPState × List DPEvent :=
  let s1 := { s with latestOrderBook := none, hasValidOrderBook := false }
  let s2 :=
    match s1.viewState with
    | some vs => { s1 with viewState := some vs.resetZoom }
    | none => s1
  let s3 := { s2 with publishedCells := none }
  (s3, emitIf s3.connected DPEvent.dataUpdated)

/-- `DataProcessor::stopProcessing`: the atomic compare-and-set shutdown
transition — only the first call stops the timer, severs the signal
connections and clears the data; later calls return immediately. -/
def stopProcessing (s : DPState) : DPState × List DPEvent :=
  if s.shuttingDown then (s, [])
  else
    let s1 := { s with shuttingDown := true }
    let s2 := { s1 with timerActive := false }
    let s3 := { s2 with connected := false }
    clearData s3

/-- Snapshots fed to the engine within an event list. -/
def fedSnapshots (evs : List DPEvent) : List OrderBook :=
  evs.filterMap (fun e =>
    match e with
    | DPEvent.addOrderBookSnapshot ob => some ob
    | _ => none)

/-- Slice queries issued to the engine within an event list, as
(timeframe, start, end) triples in order. -/
def sliceQueries (evs : List DPEvent) : List (Int × Int × Int) :=
  evs.filterMap (fun e =>
    match e with
    | DPEvent.querySlices tf a b => some (tf, a, b)
    | _ => none)

/-! ### Helper lemmas -/

lemma fedSnapshots_append (a b : List DPEvent) :
    fedSnapshots (a ++ b) = fedSnapshots a ++ fedSnapshots b := by
  simp [fedSnapshots]

lemma sliceQueries_append (a b : List DPEvent) :
    sliceQueries (a ++ b) = sliceQueries a ++ sliceQueries b := by
  simp [sliceQueries]

lemma processSliceAppend_of_mem (vs : GridViewState) (s : DPState)
    (sl : LiquidityTimeSlice) (h : sliceRange sl ∈ s.processedTimeRanges) :
    processSliceAppend vs s sl =
      { s with lastProcessedTime := max s.lastProcessedTime sl.endTime_ms } := by
  simp only [processSliceAppend, insertRange, if_pos h]
  rcases lt_or_ge s.lastProcessedTime sl.endTime_ms with hlt | hge
  · rw [if_pos hlt, max_eq_right (le_of_lt hlt)]
  · rw [if_neg (not_lt.mpr hge), max_eq_left hge]

lemma processSliceAppend_of_not_mem (vs : GridViewState) (s : DPState)
    (sl : LiquidityTimeSlice) (h : sliceRange sl ∉ s.processedTimeRanges) :
    (processSliceAppend vs s sl).visibleCells =
      createCellsFromLiquiditySlice vs s.currentTimeframe_ms sl s.visibleCells ∧
    (processSliceAppend vs s sl).processedTimeRanges =
      sliceRange sl :: s.processedTimeRanges := by
  simp only [processSliceAppend, insertRange, if_neg h]
  constructor <;> (split <;> rfl)

lemma processSliceAppend_lastProcessedTime (vs : GridViewState) (s : DPState)
    (sl : LiquidityTimeSlice) :
    (processSliceAppend vs s sl).lastProcessedTime =
      max s.lastProcessedTime sl.endTime_ms := by
  simp only [processSliceAppend, insertRange]
  split <;>
    (rcases lt_or_ge s.lastProcessedTime sl.endTime_ms with hlt | hge
     · rw [if_pos hlt, max_eq_right (le_of_lt hlt)]
     · rw [if_neg (not_lt.mpr hge), max_eq_left hge])

lemma processSliceRebuild_lastProcessedTime (vs : GridViewState) (s : DPState)
    (sl : LiquidityTimeSlice) :
    (processSliceRebuild vs s sl).lastProcessedTime =
      max s.lastProcessedTime sl.endTime_ms := by
  simp only [processSliceRebuild, insertRange]
  rcases lt_or_ge s.lastProcessedTime sl.endTime_ms with hlt | hge
  · rw [if_pos hlt, max_eq_right (le_of_lt hlt)]
  · rw [if_neg (not_lt.mpr hge), max_eq_left hge]

lemma processSliceAppend_ranges_superset (vs : GridViewState) (s : DPState)
    (sl : LiquidityTimeSlice) :
    s.processedTimeRanges ⊆ (processSliceAppend vs s sl).processedTimeRanges := by
  intro r hr
  simp only [processSliceAppend, insertRange]
  split <;> split <;> simp_all

lemma processSliceAppend_ranges_mem (vs : GridViewState) (s : DPState)
    (sl : LiquidityTimeSlice) :
    sliceRange sl ∈ (processSliceAppend vs s sl).processedTimeRanges := by
  simp only [processSliceAppend, insertRange]
  split <;> split <;> simp_all

lemma processSliceRebuild_ranges_superset (vs : GridViewState) (s : DPState)
    (sl : LiquidityTimeSlice) :
    s.processedTimeRanges ⊆ (processSliceRebuild vs s sl).processedTimeRanges := by
  intro r hr
  simp only [processSliceRebuild, insertRange]
  split <;> split <;> simp_all

lemma processSliceRebuild_ranges_mem (vs : GridViewState) (s : DPState)
    (sl : LiquidityTimeSlice) :
    sliceRange sl ∈ (processSliceRebuild vs s sl).processedTimeRanges := by
  simp only [processSliceRebuild, insertRange]
  split <;> split <;> simp_all

lemma foldl_ranges_superset (step : DPState → LiquidityTimeSlice → DPState)
    (hsub : ∀ s sl, s.processedTimeRanges ⊆ (step s sl).processedTimeRanges) :
    ∀ (l : List LiquidityTimeSlice) (s : DPState),
      s.processedTimeRanges ⊆ (l.foldl step s).processedTimeRanges := by
  intro l
  induction l with
  | nil => intro s; simp
  | cons x xs ih =>
    intro s
    exact (hsub s x).trans (ih (step s x))

lemma foldl_ranges_mem (step : DPState → LiquidityTimeSlice → DPState)
    (hsub : ∀ s sl, s.processedTimeRanges ⊆ (step s sl).processedTimeRanges)
    (hmem : ∀ s sl, sliceRange sl ∈ (step s sl).processedTimeRanges) :
    ∀ (l : List LiquidityTimeSlice) (s : DPState) (sl : LiquidityTimeSlice),
      sl ∈ l → sliceRange sl ∈ (l.foldl step s).processedTimeRanges := by
  intro l
  induction l with
  | nil => intro s sl h; simp at h
  | cons x xs ih =>
    intro s sl h
    rcases List.mem_cons.mp h with h | h
    · subst h
      exact foldl_ranges_superset step hsub xs (step s sl) (hmem s sl)
    · exact ih (step s x) sl h

lemma foldl_append_no_new (vs : GridViewState) :
    ∀ (l : List LiquidityTimeSlice) (s : DPState),
      (∀ sl ∈ l, sliceRange sl ∈ s.processedTimeRanges) →
      (l.foldl (processSliceAppend vs) s).visibleCells = s.visibleCells ∧
      (l.foldl (processSliceAppend vs) s).processedTimeRanges = s.processedTimeRanges := by
  intro l
  induction l with
  | nil => intro s _; exact ⟨rfl, rfl⟩
  | cons x xs ih =>
    intro s h
    have hx : sliceRange x ∈ s.processedTimeRanges := h x (List.mem_cons_self x xs)
    have hstep := processSliceAppend_of_mem vs s x hx
    have hrest := ih (processSliceAppend vs s x)
      (by intro sl hsl; rw [hstep]; exact h sl (List.mem_cons_of_mem x hsl))
    rw [List.foldl_cons]
    refine ⟨hrest.1.trans ?_, hrest.2.trans ?_⟩ <;> rw [hstep]

lemma foldl_preserve {α : Type} (step : DPState → LiquidityTimeSlice → DPState)
    (f : DPState → α) (hstep : ∀ s sl, f (step s sl) = f s) :
    ∀ (l : List LiquidityTimeSlice) (s : DPState), f (l.foldl step s) = f s := by
  intro l
  induction l with
  | nil => intro s; rfl
  | cons x xs ih =>
    intro s
    rw [List.foldl_cons, ih, hstep]

lemma foldl_lastProcessedTime (step : DPState → LiquidityTimeSlice → DPState)
    (hstep : ∀ s sl, (step s sl).lastProcessedTime = max s.lastProcessedTime sl.endTime_ms) :
    ∀ (l : List LiquidityTimeSlice) (s : DPState),
      (l.foldl step s).lastProcessedTime =
        l.foldl (fun a sl => max a sl.endTime_ms) s.lastProcessedTime := by
  intro l
  induction l with
  | nil => intro s; rfl
  | cons x xs ih =>
    intro s
    rw [List.foldl_cons, List.foldl_cons, ih, hstep]

lemma foldl_max_pos :
    ∀ (l : List LiquidityTimeSlice) (init : Int), l ≠ [] →
      (∀ sl ∈ l, 0 < sl.endTime_ms) →
      0 < l.foldl (fun a sl => max a sl.endTime_ms) init := by
  intro l
  induction l with
  | nil => intro init h; exact absurd rfl h
  | cons x xs ih =>
    intro init _ hpos
    rw [List.foldl_cons]
    rcases eq_or_ne xs [] with hxs | hxs
    · subst hxs
      simp only [List.foldl_nil]
      exact lt_max_of_lt_right (hpos x (List.mem_cons_self x []))
    · exact ih (max init x.endTime_ms) hxs
        (fun sl hsl => hpos sl (List.mem_cons_of_mem x hsl))

/-! ### Claim C10 -/

/-- Concrete viewport for the C10 witness. -/
def cellVS : GridViewState :=
  { timeStart_ms := 0, timeEnd_ms := 1000, minPrice := 0, maxPrice := 200,
    version := 1, autoScrollEnabled := true, timeWindowInit := true }

/-- Concrete slice, wholly after the visible time window of `cellVS`, for the
C10 witness. -/
def cellSlice : LiquidityTimeSlice :=
  { startTime_ms := 2000, endTime_ms := 2100, duration_ms := 100, tickSize := 1,
    minTick := 0, bidMetrics := [], askMetrics := [] }

/-- Claim C10: `createLiquidityCell` appends a cell if and only if, in
addition to the positive-liquidity and price-bounds conditions, the slice's
time range intersects the visible time window (slice end ≥ window start and
slice start ≤ window end); a slice wholly outside the window leaves the
working list unchanged; and every appended cell has a strictly positive time
extent, via the fallback span when the slice's end does not exceed its
start. -/
theorem createLiquidityCell_time_window_and_extent :
    ∀ (vs : GridViewState) (tf : Int) (slice : LiquidityTimeSlice)
      (price liquidity : ℚ) (isBid : Bool) (cells : List CellInstance),
      (createLiquidityCell vs tf slice price liquidity isBid cells ≠ cells ↔
        0 < liquidity ∧ vs.minPrice ≤ price ∧ price ≤ vs.maxPrice ∧
        vs.timeStart_ms ≤ slice.endTime_ms ∧ slice.startTime_ms ≤ vs.timeEnd_ms) ∧
      (slice.endTime_ms < vs.timeStart_ms ∨ slice.startTime_ms > vs.timeEnd_ms →
        createLiquidityCell vs tf slice price liquidity isBid cells = cells) ∧
      (createLiquidityCell vs tf slice price liquidity isBid cells = cells ∨
        ∃ c : CellInstance,
          createLiquidityCell vs tf slice price liquidity isBid cells = cells ++ [c] ∧
          c.timeStart_ms < c.timeEnd_ms) := by
  intro vs tf slice price liquidity isBid cells
  unfold createLiquidityCell
  split_ifs with h1 h2 h3 h4
  · refine ⟨?_, fun _ => rfl, Or.inl rfl⟩
    constructor
    · intro h
      exact absurd rfl h
    · rintro ⟨hl, -⟩
      exact absurd hl (not_lt.mpr h1)
  · refine ⟨?_, fun _ => rfl, Or.inl rfl⟩
    constructor
    · intro h
      exact absurd rfl h
    · rintro ⟨-, hlo, hhi, -⟩
      rcases h2 with h2 | h2
      · exact absurd hlo (not_le.mpr h2)
      · exact absurd hhi (not_le.mpr h2)
  · refine ⟨?_, fun _ => rfl, Or.inl rfl⟩
    constructor
    · intro h
      exact absurd rfl h
    · rintro ⟨-, -, -, hts, hte⟩
      rcases h3 with h3 | h3
      · exact absurd hts (not_le.mpr h3)
      · exact absurd hte (not_le.mpr h3)
  · push_neg at h2 h3
    refine ⟨?_, ?_, Or.inr ⟨_, rfl, h4⟩⟩
    · refine iff_of_true ?_ ⟨not_le.mp h1, h2.1, h2.2, h3.1, h3.2⟩
      intro he
      have hlen := congrArg List.length he
      simp at hlen
    · rintro (hc | hc)
      · exact absurd h3.1 (not_le.mpr hc)
      · exact absurd h3.2 (not_le.mpr hc)
  · push_neg at h2 h3
    refine ⟨?_, ?_, Or.inr ⟨_, rfl, ?_⟩⟩
    · refine iff_of_true ?_ ⟨not_le.mp h1, h2.1, h2.2, h3.1, h3.2⟩
      intro he
      have hlen := congrArg List.length he
      simp at hlen
    · rintro (hc | hc)
      · exact absurd h3.1 (not_le.mpr hc)
      · exact absurd h3.2 (not_le.mpr hc)
    · have hmax : 1 ≤ max tf 1 := le_max_right tf 1
      dsimp only
      omega

/-- Witness for C10 at a concrete input: a slice wholly after the visible
window appends nothing. -/
theorem createLiquidityCell_time_window_and_extent_witness :
    createLiquidityCell cellVS 100 cellSlice 50 5 true [] = [] :=
  (createLiquidityCell_time_window_and_extent cellVS 100 cellSlice 50 5 true []).2.1
    (Or.inr (by decide))

/-! ### Claim C6 -/

/-- Counterexample to claim C6 at a concrete input: with the geometry and
material flags both set (no new node), the cycle runs geometry AND material
work — a set geometry flag does not suppress material work — and with the
geometry and append flags both set, the append flag is left set (not cleared)
after the cycle. -/
theorem updatePaintNode_geometry_supersedes_cex :
    (updatePaintNode true false
        { geometryDirty := true, appendPending := false,
          materialDirty := true, transformDirty := false }).2 =
      [WorkKind.geometry, WorkKind.material] ∧
    (updatePaintNode true false
        { geometryDirty := true, appendPending := true,
          materialDirty := false, transformDirty := false }).1.appendPending = true := by
  exact ⟨rfl, rfl⟩

/-- Claim C6 (amended): per cycle the flags are checked in the fixed priority
order geometry → append → material → transform; a set geometry flag (or a new
node) supersedes only the append stage, whose flag is then left set rather
than cleared; material and transform are checked independently and their work
runs in the same cycle when their flags are set; the geometry, material and
transform flags are always cleared. -/
theorem updatePaintNode_flag_schedule :
    ∀ (n g a m t : Bool),
      updatePaintNode true n
          { geometryDirty := g, appendPending := a,
            materialDirty := m, transformDirty := t } =
        ({ geometryDirty := false, appendPending := (g || n) && a,
           materialDirty := false, transformDirty := false },
         (if g || n then [WorkKind.geometry] else if a then [WorkKind.append] else []) ++
           (if m then [WorkKind.material] else []) ++
           (if t || n then [WorkKind.transform] else [])) := by
  decide

/-! ### Claim C8 -/

/-- Concrete dense book for the C8 witness. -/
def midLB : LiveOrderBook :=
  { minPrice := 0, tickSize := 1, bids := [2, 0], asks := [0, 3] }

/-- Claim C8: both the viewport-bootstrap mid price and the band-selector mid
price equal the average of best bid and best ask when both sides exist,
otherwise the best price of whichever single side exists, otherwise the
fallback value (100000 for the bootstrap, the dense-range center for the band
selector). -/
theorem mid_price_cases :
    (∀ b a : ℚ, initMidPrice (some b) (some a) = (b + a) / 2) ∧
    (∀ b : ℚ, initMidPrice (some b) none = b) ∧
    (∀ a : ℚ, initMidPrice none (some a) = a) ∧
    initMidPrice none none = 100000 ∧
    (∀ (lb : LiveOrderBook) (b a : Nat), bestBidIdx lb = some b →
      bestAskIdx lb = some a →
      denseMid lb = (tickPrice lb b + tickPrice lb a) / 2) ∧
    (∀ (lb : LiveOrderBook) (b : Nat), bestBidIdx lb = some b →
      bestAskIdx lb = none → denseMid lb = tickPrice lb b) ∧
    (∀ (lb : LiveOrderBook) (a : Nat), bestBidIdx lb = none →
      bestAskIdx lb = some a → denseMid lb = tickPrice lb a) ∧
    (∀ lb : LiveOrderBook, bestBidIdx lb = none → bestAskIdx lb = none →
      denseMid lb = lb.minPrice + (lb.bids.length : ℚ) * lb.tickSize / 2) := by
  refine ⟨fun b a => rfl, fun b => rfl, fun a => rfl, rfl, ?_, ?_, ?_, ?_⟩
  · intro lb b a hb ha
    simp only [denseMid, hb, ha]
  · intro lb b hb ha
    simp only [denseMid, hb, ha]
  · intro lb a hb ha
    simp only [denseMid, hb, ha]
  · intro lb hb ha
    simp only [denseMid, hb, ha]

/-- Witness for C8 at a concrete input: a dense book whose best bid is tick 0
and best ask tick 1 gets the average as its mid price. -/
theorem mid_price_cases_witness :
    denseMid midLB = (tickPrice midLB 0 + tickPrice midLB 1) / 2 :=
  mid_price_cases.2.2.2.2.1 midLB 0 1 (by decide) (by decide)

/-! ### Claim C5 -/

lemma bandMaxIndex_le (lb : LiveOrderBook) (len : Nat) (x : ℚ) :
    bandMaxIndex lb len x ≤ len := by
  unfold bandMaxIndex
  have h1 : min ((len : Int)) (Int.ceil ((x - lb.minPrice) / lb.tickSize) + 1) ≤ (len : Int) :=
    min_le_left _ _
  exact Int.toNat_le.mpr h1

lemma bestBidIdx_none_nonpos (lb : LiveOrderBook) (h : bestBidIdx lb = none) :
    ∀ i, i < lb.bids.length → lb.bids.getD i 0 ≤ 0 := by
  intro i hi
  unfold bestBidIdx at h
  rw [List.find?_eq_none] at h
  have hh := h i (by rw [List.mem_reverse]; exact List.mem_range.mpr hi)
  simp only [decide_eq_true_eq] at hh
  exact not_lt.mp hh

lemma bestAskIdx_none_nonpos (lb : LiveOrderBook) (h : bestAskIdx lb = none) :
    ∀ i, i < lb.asks.length → lb.asks.getD i 0 ≤ 0 := by
  intro i hi
  unfold bestAskIdx at h
  rw [List.find?_eq_none] at h
  have hh := h i (List.mem_range.mpr hi)
  simp only [decide_eq_true_eq] at hh
  exact not_lt.mp hh

lemma scanBandBids_eq_nil (lb : LiveOrderBook) (mi ma : Nat)
    (hma : ma ≤ lb.bids.length)
    (h : ∀ i, i < lb.bids.length → lb.bids.getD i 0 ≤ 0) :
    scanBandBids lb mi ma = [] := by
  unfold scanBandBids
  rw [List.filterMap_eq_nil_iff]
  intro idx hidx
  rcases List.mem_map.mp hidx with ⟨j, hj, rfl⟩
  have hjlt := List.mem_range.mp hj
  have hlt : ma - 1 - j < lb.bids.length := by omega
  have hq := h _ hlt
  dsimp only
  rw [if_neg (not_lt.mpr hq)]

lemma scanBandAsks_eq_nil (lb : LiveOrderBook) (mi ma : Nat)
    (hma : ma ≤ lb.asks.length)
    (h : ∀ i, i < lb.asks.length → lb.asks.getD i 0 ≤ 0) :
    scanBandAsks lb mi ma = [] := by
  unfold scanBandAsks
  rw [List.filterMap_eq_nil_iff]
  intro idx hidx
  rcases List.mem_map.mp hidx with ⟨j, hj, rfl⟩
  have hjlt := List.mem_range.mp hj
  have hlt : mi + j < lb.asks.length := by omega
  have hq := h _ hlt
  dsimp only
  rw [if_neg (not_lt.mpr hq)]

/-- Concrete dense book for the C5 witness: positive quantities only at the
extreme ticks, so a one-dollar band around the mid excludes them all. -/
def fbLB : LiveOrderBook :=
  { minPrice := 0, tickSize := 1,
    bids := [2, 0, 0, 0, 0, 0, 0], asks := [0, 0, 0, 0, 0, 0, 3] }

/-- Claim C5: whenever the band scan yields zero levels on a side whose best
price exists in the dense book, the banded snapshot contains exactly one level
for that side — the top-of-book price with its quantity; a side with no best
price contributes no levels. -/
theorem banded_snapshot_top_of_book_fallback :
    ∀ (mode : BandMode) (bv : ℚ) (pid : String) (now : Int) (lb : LiveOrderBook),
      (∀ i : Nat, bestBidIdx lb = some i → bandBidsOf mode bv lb = [] →
        (buildBandedSnapshot mode bv pid now lb).bids =
          [{ price := tickPrice lb i, quantity := lb.bids.getD i 0 }]) ∧
      (bestBidIdx lb = none → (buildBandedSnapshot mode bv pid now lb).bids = []) ∧
      (∀ i : Nat, bestAskIdx lb = some i → bandAsksOf mode bv lb = [] →
        (buildBandedSnapshot mode bv pid now lb).asks =
          [{ price := tickPrice lb i, quantity := lb.asks.getD i 0 }]) ∧
      (bestAskIdx lb = none → (buildBandedSnapshot mode bv pid now lb).asks = []) := by
  intro mode bv pid now lb
  refine ⟨?_, ?_, ?_, ?_⟩
  · intro i hb he
    simp only [buildBandedSnapshot, he, hb]
  · intro hb
    have hnil : bandBidsOf mode bv lb = [] := by
      unfold bandBidsOf
      exact scanBandBids_eq_nil lb _ _ (bandMaxIndex_le lb lb.bids.length _)
        (bestBidIdx_none_nonpos lb hb)
    simp only [buildBandedSnapshot, hnil, hb]
  · intro i ha he
    simp only [buildBandedSnapshot, he, ha]
  · intro ha
    have hnil : bandAsksOf mode bv lb = [] := by
      unfold bandAsksOf
      exact scanBandAsks_eq_nil lb _ _ (bandMaxIndex_le lb lb.asks.length _)
        (bestAskIdx_none_nonpos lb ha)
    simp only [buildBandedSnapshot, hnil, ha]

/-- Witness for C5 at a concrete input: the band excludes every level, so the
bid side falls back to exactly its top-of-book level. -/
theorem banded_snapshot_top_of_book_fallback_witness :
    (buildBandedSnapshot BandMode.FixedDollar 1 "X" 0 fbLB).bids =
      [{ price := tickPrice fbLB 0, quantity := fbLB.bids.getD 0 0 }] :=
  (banded_snapshot_top_of_book_fallback BandMode.FixedDollar 1 "X" 0 fbLB).1 0 (by decide)
    (by norm_num [bandBidsOf, scanBandBids, bandMinIndex, bandMaxIndex, clampedHalfBand,
          rawHalfBand, denseMid, bestBidIdx, bestAskIdx, tickPrice, fbLB, List.range_succ]
        decide)

/-! ### Claim C7 -/

/-- Base processor state for concrete witnesses. -/
def baseDP : DPState :=
  { shuttingDown := false, timerActive := false, connected := true, hasEngine := true,
    viewState := none, latestOrderBook := none, hasValidOrderBook := false,
    manualTimeframeSet := true, manualTimerValid := false, manualElapsed_ms := 0,
    currentTimeframe_ms := 100, visibleCells := [], publishedCells := none,
    lastProcessedTime := 0, lastViewportVersion := 0, processedTimeRanges := [],
    lastBucket := 0 }

/-- Trivial engine oracle for concrete witnesses: no slices, constant
timeframe suggestion. -/
def engNone : LiquidityEngine :=
  { getVisibleSlices := fun _ _ _ => [], suggestTimeframe := fun _ _ _ => 100 }

/-- Claim C7: shutdown is a one-way idempotent transition — only the first
`stopProcessing` call (winning the compare-and-set) stops the timer, severs
the signal connections and clears state, every later call returns immediately;
and once the shutdown flag is set, trade ingestion, order-book ingestion, the
sampling tick and the visible-cell recomputation are all strict no-ops that
neither mutate state nor emit events. -/
theorem shutdown_one_way_idempotent :
    (∀ s : DPState, s.shuttingDown = true → stopProcessing s = (s, [])) ∧
    (∀ s : DPState, s.shuttingDown = false →
      (stopProcessing s).1.shuttingDown = true ∧
      (stopProcessing s).1.timerActive = false ∧
      (stopProcessing s).1.connected = false ∧
      (stopProcessing s).1.latestOrderBook = none ∧
      (stopProcessing s).1.hasValidOrderBook = false ∧
      (stopProcessing s).1.publishedCells = none ∧
      (stopProcessing s).2 = []) ∧
    (∀ s : DPState, stopProcessing (stopProcessing s).1 = ((stopProcessing s).1, [])) ∧
    (∀ (s : DPState) (t : Trade) (eng : LiquidityEngine) (bk : Option OrderBook)
      (now : Int), s.shuttingDown = true →
      onTradeReceived t s = (s, []) ∧
      onOrderBookUpdated eng bk s = (s, []) ∧
      captureOrderBookSnapshot eng now s = (s, []) ∧
      updateVisibleCells eng s = (s, [])) := by
  have hstop : ∀ s : DPState, s.shuttingDown = false →
      (stopProcessing s).1.shuttingDown = true ∧
      (stopProcessing s).1.timerActive = false ∧
      (stopProcessing s).1.connected = false ∧
      (stopProcessing s).1.latestOrderBook = none ∧
      (stopProcessing s).1.hasValidOrderBook = false ∧
      (stopProcessing s).1.publishedCells = none ∧
      (stopProcessing s).2 = [] := by
    intro s h
    cases hv : s.viewState <;> simp [stopProcessing, clearData, emitIf, h, hv]
  have hid : ∀ s : DPState, s.shuttingDown = true → stopProcessing s = (s, []) := by
    intro s h
    simp [stopProcessing, h]
  refine ⟨hid, hstop, ?_, ?_⟩
  · intro s
    by_cases h : s.shuttingDown = true
    · rw [hid s h]
      exact hid s h
    · have h' : s.shuttingDown = false := by
        cases hb : s.shuttingDown
        · rfl
        · exact absurd hb h
      exact hid _ (hstop s h').1
  · intro s t eng bk now h
    refine ⟨?_, ?_, ?_, ?_⟩ <;>
      simp [onTradeReceived, onOrderBookUpdated, captureOrderBookSnapshot,
        updateVisibleCells, h]

/-- Witness for C7 at a concrete input: a second shutdown of an
already-shut-down state is an identity with no events. -/
theorem shutdown_one_way_idempotent_witness :
    stopProcessing { baseDP with shuttingDown := true } =
      ({ baseDP with shuttingDown := true }, []) :=
  shutdown_one_way_idempotent.1 { baseDP with shuttingDown := true } rfl

/-! ### Claim C9 -/

/-- Concrete trade with a non-positive size and a nonempty instrument id, for
the C9 counterexample. -/
def tr9 : Trade :=
  { product_id := "BTC-USD", price := 100, size := 0, isBuy := true,
    timestamp_ms := 100000 }

/-- Concrete not-yet-valid viewport for the C9 counterexample. -/
def vs9 : GridViewState :=
  { timeStart_ms := 0, timeEnd_ms := 0, minPrice := 0, maxPrice := 0,
    version := 0, autoScrollEnabled := true, timeWindowInit := false }

/-- Concrete processor state, viewport not yet valid, for the C9
counterexample. -/
def s9 : DPState := { baseDP with viewState := some vs9 }

/-- Counterexample to claim C9 at a concrete input: a trade with non-positive
size but nonempty instrument id is NOT dropped — the handler proceeds and
initializes the viewport, mutating state. -/
theorem trade_size_not_validated_cex :
    tr9.size ≤ 0 ∧ tr9.product_id ≠ "" ∧ (onTradeReceived tr9 s9).1 ≠ s9 := by
  refine ⟨le_refl 0, by decide, ?_⟩
  intro h
  have h2 := congrArg (fun st : DPState => st.viewState.map GridViewState.timeWindowInit) h
  simp [onTradeReceived, initViewportFromTrade, s9, vs9, tr9, baseDP,
    GridViewState.setViewport, GridViewState.isTimeWindowValid, emitIf] at h2

/-- Claim C9 (amended): every trade event with an empty instrument id, and
every order-book update that is null or has an empty instrument id or an empty
book side, is dropped — the handler returns with no state modified and no
event emitted.  Trade size is not validated: a trade with non-positive size
and a nonempty id is processed normally (it can, in particular, initialize the
viewport). -/
theorem malformed_inputs_dropped :
    (∀ (t : Trade) (s : DPState), t.product_id = "" → onTradeReceived t s = (s, [])) ∧
    (∀ (eng : LiquidityEngine) (s : DPState), onOrderBookUpdated eng none s = (s, [])) ∧
    (∀ (eng : LiquidityEngine) (book : OrderBook) (s : DPState),
      book.product_id = "" ∨ book.bids = [] ∨ book.asks = [] →
      onOrderBookUpdated eng (some book) s = (s, [])) := by
  refine ⟨?_, ?_, ?_⟩
  · intro t s h
    by_cases hs : s.shuttingDown = true <;> simp [onTradeReceived, h, hs]
  · intro eng s
    by_cases hs : s.shuttingDown = true <;> simp [onOrderBookUpdated, hs]
  · intro eng book s h
    by_cases hs : s.shuttingDown = true <;> simp [onOrderBookUpdated, h, hs]

/-- Concrete order book with an empty bid side for the C9 witness. -/
def ob9 : OrderBook :=
  { product_id := "BTC-USD", timestamp_ms := 100000, bids := [],
    asks := [{ price := 101, quantity := 1 }] }

/-- Witness for C9 (amended) at a concrete input: an order-book update with an
empty bid side is dropped without touching state. -/
theorem malformed_inputs_dropped_witness :
    onOrderBookUpdated engNone (some ob9) baseDP = (baseDP, []) :=
  malformed_inputs_dropped.2.2 engNone ob9 baseDP (Or.inr (Or.inl rfl))

/-! ### Claim C3 -/

lemma uvcTimeframe_eq (eng : LiquidityEngine) (vs : GridViewState) (s : DPState) :
    uvcTimeframe eng vs s =
      ({ s with currentTimeframe_ms := activeTimeframeOf eng vs s },
       activeTimeframeOf eng vs s) := by
  cases s
  unfold uvcTimeframe activeTimeframeOf
  dsimp only
  split_ifs <;> simp_all

lemma processSliceAppend_lastBucket (vs : GridViewState) (s : DPState)
    (sl : LiquidityTimeSlice) : (processSliceAppend vs s sl).lastBucket = s.lastBucket := by
  simp only [processSliceAppend, insertRange]
  split <;> split <;> rfl

lemma processSliceRebuild_lastBucket (vs : GridViewState) (s : DPState)
    (sl : LiquidityTimeSlice) : (processSliceRebuild vs s sl).lastBucket = s.lastBucket := by
  simp only [processSliceRebuild, insertRange]
  split <;> rfl

lemma uvcProcess_lastBucket (vs : GridViewState) (fr : Bool)
    (slices : List LiquidityTimeSlice) (s : DPState) :
    (uvcProcess vs fr slices s).lastBucket = s.lastBucket := by
  unfold uvcProcess
  split
  · exact foldl_preserve _ (fun st => st.lastBucket) (processSliceRebuild_lastBucket vs) slices _
  · exact foldl_preserve _ (fun st => st.lastBucket) (processSliceAppend_lastBucket vs) slices _

lemma uvcQueryAndFix_lastBucket (eng : LiquidityEngine) (tf : Int) (vs : GridViewState)
    (s : DPState) : (uvcQueryAndFix eng tf vs s).2.1.lastBucket = s.lastBucket := by
  unfold uvcQueryAndFix
  dsimp only
  repeat' split
  all_goals rfl

lemma uvc_lastBucket (eng : LiquidityEngine) (s : DPState) :
    (updateVisibleCells eng s).1.lastBucket = s.lastBucket := by
  unfold updateVisibleCells
  split
  · rfl
  · split
    · rfl
    · split
      · rfl
      · simp only [uvcTimeframe_eq]
        repeat' split
        all_goals simp [uvcProcess_lastBucket, uvcQueryAndFix_lastBucket]


lemma fedSnapshots_emitIf (c : Bool) :
    fedSnapshots (emitIf c DPEvent.dataUpdated) = [] := by
  cases c <;> rfl

lemma fedSnapshots_qf (eng : LiquidityEngine) (tf : Int) (vs : GridViewState) (s : DPState) :
    fedSnapshots (uvcQueryAndFix eng tf vs s).2.2.2 = [] := by
  unfold uvcQueryAndFix
  dsimp only
  repeat' split
  all_goals rfl

lemma fedSnapshots_uvc (eng : LiquidityEngine) (s : DPState) :
    fedSnapshots (updateVisibleCells eng s).2 = [] := by
  unfold updateVisibleCells
  split
  · rfl
  · split
    · rfl
    · split
      · rfl
      · simp only [uvcTimeframe_eq]
        repeat' split
        all_goals simp only [fedSnapshots_append, fedSnapshots_qf, fedSnapshots_emitIf,
          List.append_nil]
        all_goals rfl

lemma fedSnapshots_map_add (l : List OrderBook) :
    fedSnapshots (l.map DPEvent.addOrderBookSnapshot) = l := by
  induction l with
  | nil => rfl
  | cons x xs ih =>
    show x :: fedSnapshots (xs.map DPEvent.addOrderBookSnapshot) = x :: xs
    rw [ih]

lemma fedSnapshots_cons_add (ob : OrderBook) (l : List DPEvent) :
    fedSnapshots (DPEvent.addOrderBookSnapshot ob :: l) = ob :: fedSnapshots l := rfl

/-- Concrete sparse book retained as latest, for the C3 witness. -/
def capBook : OrderBook :=
  { product_id := "X", timestamp_ms := 0,
    bids := [{ price := 99, quantity := 1 }], asks := [{ price := 101, quantity := 1 }] }

/-- Concrete sampler state with a seeded bucket clock, for the C3 witness. -/
def capState : DPState :=
  { baseDP with latestOrderBook := some capBook, lastBucket := 1000 }

/-- Claim C3: on a sampling tick whose 100 ms bucket lies N+1 buckets past
the seeded clock (N skipped buckets), the engine receives exactly N+1
snapshots, one per bucket boundary from the bucket after the last sampled one
through the current bucket, all carrying the same latest book state; the first
sample after (re)start seeds the bucket clock with a single snapshot and no
carry-forward. -/
theorem capture_gap_fill :
    ∀ (eng : LiquidityEngine) (s : DPState) (book : OrderBook) (nowMs : Int) (N : Nat),
      s.shuttingDown = false → s.hasEngine = true → s.latestOrderBook = some book →
      ((s.lastBucket ≠ 0 →
        nowMs / 100 * 100 = s.lastBucket + 100 * ((N : Int) + 1) →
        fedSnapshots (captureOrderBookSnapshot eng nowMs s).2 =
          (List.range (N + 1)).map
            (fun j => { book with timestamp_ms := s.lastBucket + 100 * ((j : Int) + 1) }) ∧
        (captureOrderBookSnapshot eng nowMs s).1.lastBucket =
          s.lastBucket + 100 * ((N : Int) + 1)) ∧
      (s.lastBucket = 0 →
        fedSnapshots (captureOrderBookSnapshot eng nowMs s).2 =
          [{ book with timestamp_ms := nowMs / 100 * 100 }] ∧
        (captureOrderBookSnapshot eng nowMs s).1.lastBucket = nowMs / 100 * 100)) := by
  intro eng s book now N hsd heng hbook
  constructor
  · intro hL hnow
    have hlt : s.lastBucket < now / 100 * 100 := by rw [hnow]; omega
    have hcount : ((now / 100 * 100 - s.lastBucket) / 100).toNat = N + 1 := by
      rw [hnow]; omega
    simp only [captureOrderBookSnapshot, hsd, heng, hbook]
    rw [if_neg (by simp), if_neg (by simp), if_neg hL, if_pos hlt, hcount]
    constructor
    · rw [fedSnapshots_append, fedSnapshots_uvc, List.append_nil, fedSnapshots_map_add]
    · rw [uvc_lastBucket]
      dsimp only
      push_cast
      ring
  · intro hL0
    simp only [captureOrderBookSnapshot, hsd, heng, hbook]
    rw [if_neg (by simp), if_neg (by simp), if_pos hL0]
    constructor
    · rw [fedSnapshots_cons_add, fedSnapshots_uvc]
    · rw [uvc_lastBucket]

/-- Witness for C3 at a concrete input: a tick at 1305 ms with the clock at
1000 ms feeds exactly three snapshots, at 1100, 1200 and 1300 ms. -/
theorem capture_gap_fill_witness :
    fedSnapshots (captureOrderBookSnapshot engNone 1305 capState).2 =
      (List.range (2 + 1)).map
        (fun j => { capBook with timestamp_ms := 1000 + 100 * ((j : Int) + 1) }) ∧
    (captureOrderBookSnapshot engNone 1305 capState).1.lastBucket =
      1000 + 100 * ((2 : Int) + 1) :=
  (capture_gap_fill engNone capState capBook 1305 2 rfl rfl rfl).1 (by decide) (by decide)

/-! ### Claim C4 -/

lemma autoTfBranch_clear (s : DPState) (v : Nat) :
    autoTfBranch
      { s with visibleCells := [], processedTimeRanges := [],
               lastProcessedTime := 0, lastViewportVersion := v } = autoTfBranch s := rfl

lemma activeTimeframeOf_clear (eng : LiquidityEngine) (vs : GridViewState) (s : DPState)
    (v : Nat) :
    activeTimeframeOf eng vs
      { s with visibleCells := [], processedTimeRanges := [],
               lastProcessedTime := 0, lastViewportVersion := v } = activeTimeframeOf eng vs s := rfl

lemma uvc_main_eq (eng : LiquidityEngine) (s : DPState) (vs : GridViewState)
    (hsd : s.shuttingDown = false) (hvs : s.viewState = some vs)
    (hvalid : vs.isTimeWindowValid = true) (heng : s.hasEngine = true) :
    updateVisibleCells eng s =
      (let vpc : Bool := decide (vs.version ≠ s.lastViewportVersion)
       let s1 :=
         if vpc then
           { s with visibleCells := [], processedTimeRanges := [],
                    lastProcessedTime := 0, lastViewportVersion := vs.version }
         else s
       let tf := activeTimeframeOf eng vs s
       let s2 := { s1 with currentTimeframe_ms := tf }
       let qf := uvcQueryAndFix eng tf vs s2
       let s4 := uvcProcess qf.1 (vpc || decide (qf.2.1.lastProcessedTime = 0)) qf.2.2.1 qf.2.1
       let evs0 := if autoTfBranch s then
           [DPEvent.suggestTf vs.timeStart_ms vs.timeEnd_ms 2000] else []
       if vpc || decide (s4.visibleCells.length ≠ qf.2.1.visibleCells.length) then
         ({ s4 with publishedCells := some s4.visibleCells },
          evs0 ++ qf.2.2.2 ++ emitIf s4.connected DPEvent.dataUpdated)
       else (s4, evs0 ++ qf.2.2.2)) := by
  cases s with
  | mk sd ta co he vst lob hvb mts mtv mel ctf vc pc lpt lvv ptr lb =>
    dsimp only at hsd hvs heng
    subst hsd hvs heng
    by_cases hv : vs.version = lvv
    · simp [updateVisibleCells, uvcTimeframe_eq, hvalid, hv, activeTimeframeOf, autoTfBranch]
    · simp [updateVisibleCells, uvcTimeframe_eq, hvalid, hv, activeTimeframeOf, autoTfBranch]


lemma uvcQueryAndFix_of_ne_nil (eng : LiquidityEngine) (tf : Int) (vs : GridViewState)
    (s : DPState) (h : eng.getVisibleSlices tf vs.timeStart_ms vs.timeEnd_ms ≠ []) :
    uvcQueryAndFix eng tf vs s =
      (vs, s, eng.getVisibleSlices tf vs.timeStart_ms vs.timeEnd_ms,
       [DPEvent.querySlices tf vs.timeStart_ms vs.timeEnd_ms]) := by
  have hf : (eng.getVisibleSlices tf vs.timeStart_ms vs.timeEnd_ms).isEmpty = false := by
    cases hq : eng.getVisibleSlices tf vs.timeStart_ms vs.timeEnd_ms with
    | nil => exact absurd hq h
    | cons a l => rfl
  unfold uvcQueryAndFix
  simp [hf]

lemma uvcQueryAndFix_autofix (eng : LiquidityEngine) (tf : Int) (vs : GridViewState)
    (s : DPState) (lastSlice : LiquidityTimeSlice)
    (h0 : eng.getVisibleSlices tf vs.timeStart_ms vs.timeEnd_ms = [])
    (hAS : vs.autoScrollEnabled = true)
    (hlast : (eng.getVisibleSlices tf 0 LLONG_MAX).getLast? = some lastSlice)
    (hgap : 60000 < vs.timeStart_ms - lastSlice.endTime_ms) :
    uvcQueryAndFix eng tf vs s =
      (vs.setViewport (lastSlice.endTime_ms - 30000) (lastSlice.endTime_ms + 30000)
         vs.minPrice vs.maxPrice,
       { s with viewState := some (vs.setViewport (lastSlice.endTime_ms - 30000)
           (lastSlice.endTime_ms + 30000) vs.minPrice vs.maxPrice) },
       eng.getVisibleSlices tf (lastSlice.endTime_ms - 30000) (lastSlice.endTime_ms + 30000),
       [DPEvent.querySlices tf vs.timeStart_ms vs.timeEnd_ms,
        DPEvent.querySlices tf 0 LLONG_MAX,
        DPEvent.querySlices tf (lastSlice.endTime_ms - 30000)
          (lastSlice.endTime_ms + 30000)]) := by
  unfold uvcQueryAndFix
  simp [h0, hAS, hlast, hgap]

lemma uvcQueryAndFix_noscroll (eng : LiquidityEngine) (tf : Int) (vs : GridViewState)
    (s : DPState)
    (h0 : eng.getVisibleSlices tf vs.timeStart_ms vs.timeEnd_ms = [])
    (hAS : vs.autoScrollEnabled = false) :
    uvcQueryAndFix eng tf vs s =
      (vs, s, [], [DPEvent.querySlices tf vs.timeStart_ms vs.timeEnd_ms]) := by
  unfold uvcQueryAndFix
  simp [h0, hAS]

lemma processSliceAppend_viewState (vs : GridViewState) (s : DPState)
    (sl : LiquidityTimeSlice) : (processSliceAppend vs s sl).viewState = s.viewState := by
  simp only [processSliceAppend, insertRange]
  split <;> split <;> rfl

lemma processSliceRebuild_viewState (vs : GridViewState) (s : DPState)
    (sl : LiquidityTimeSlice) : (processSliceRebuild vs s sl).viewState = s.viewState := by
  simp only [processSliceRebuild, insertRange]
  split <;> rfl

lemma uvcProcess_viewState (vs : GridViewState) (fr : Bool)
    (slices : List LiquidityTimeSlice) (s : DPState) :
    (uvcProcess vs fr slices s).viewState = s.viewState := by
  unfold uvcProcess
  split
  · exact foldl_preserve _ (fun st => st.viewState) (processSliceRebuild_viewState vs) slices _
  · exact foldl_preserve _ (fun st => st.viewState) (processSliceAppend_viewState vs) slices _

lemma sliceQueries_emitIf (c : Bool) :
    sliceQueries (emitIf c DPEvent.dataUpdated) = [] := by
  cases c <;> rfl

lemma sliceQueries_suggestIf (c : Bool) (a b : Int) (n : Nat) :
    sliceQueries (if c then [DPEvent.suggestTf a b n] else []) = [] := by
  cases c <;> rfl


/-- Claim C4: when the windowed slice query is empty, auto-scroll is enabled,
the engine has slices over the unbounded range, and the newest slice's end is
more than 60000 ms before the viewport's time-start, the viewport's time
bounds are snapped to newest ±30000 with the price bounds unchanged and the
query is retried exactly once (three engine queries: window, unbounded,
retry); with auto-scroll disabled the viewport is left untouched and only the
single windowed query occurs. -/
theorem uvc_autofit_viewport :
    ∀ (eng : LiquidityEngine) (s : DPState) (vs : GridViewState)
      (lastSlice : LiquidityTimeSlice),
      s.shuttingDown = false → s.viewState = some vs →
      vs.isTimeWindowValid = true → s.hasEngine = true →
      eng.getVisibleSlices (activeTimeframeOf eng vs s) vs.timeStart_ms vs.timeEnd_ms = [] →
      ((vs.autoScrollEnabled = true →
        (eng.getVisibleSlices (activeTimeframeOf eng vs s) 0 LLONG_MAX).getLast? =
          some lastSlice →
        60000 < vs.timeStart_ms - lastSlice.endTime_ms →
        (updateVisibleCells eng s).1.viewState =
          some (vs.setViewport (lastSlice.endTime_ms - 30000)
            (lastSlice.endTime_ms + 30000) vs.minPrice vs.maxPrice) ∧
        sliceQueries (updateVisibleCells eng s).2 =
          [(activeTimeframeOf eng vs s, vs.timeStart_ms, vs.timeEnd_ms),
           (activeTimeframeOf eng vs s, 0, LLONG_MAX),
           (activeTimeframeOf eng vs s, lastSlice.endTime_ms - 30000,
            lastSlice.endTime_ms + 30000)]) ∧
      (vs.autoScrollEnabled = false →
        (updateVisibleCells eng s).1.viewState = s.viewState ∧
        sliceQueries (updateVisibleCells eng s).2 =
          [(activeTimeframeOf eng vs s, vs.timeStart_ms, vs.timeEnd_ms)])) := by
  intro eng s vs lastSlice hsd hvs hvalid heng h0
  constructor
  · intro hAS hlast hgap
    simp only [uvc_main_eq eng s vs hsd hvs hvalid heng,
      uvcQueryAndFix_autofix eng _ vs _ lastSlice h0 hAS hlast hgap]
    constructor
    · repeat' split
      all_goals simp [uvcProcess_viewState]
    · repeat' split
      all_goals simp only [sliceQueries_append, sliceQueries_suggestIf, sliceQueries_emitIf,
        List.append_nil, List.nil_append]
      all_goals rfl
  · intro hAS
    simp only [uvc_main_eq eng s vs hsd hvs hvalid heng,
      uvcQueryAndFix_noscroll eng _ vs _ h0 hAS]
    constructor
    · repeat' split
      all_goals simp [uvcProcess_viewState, hvs]
    · repeat' split
      all_goals simp only [sliceQueries_append, sliceQueries_suggestIf, sliceQueries_emitIf,
        List.append_nil, List.nil_append]
      all_goals rfl


/-- Concrete viewport far ahead of the available data, for the C4 witness. -/
def afVS : GridViewState :=
  { timeStart_ms := 100000, timeEnd_ms := 160000, minPrice := 0, maxPrice := 200,
    version := 0, autoScrollEnabled := true, timeWindowInit := true }

/-- Concrete newest slice, ending 90 s before the viewport start, for the C4
witness. -/
def afSlice : LiquidityTimeSlice :=
  { startTime_ms := 9000, endTime_ms := 10000, duration_ms := 1000, tickSize := 1,
    minTick := 0, bidMetrics := [], askMetrics := [] }

/-- Concrete engine for the C4 witness: slices exist only on the unbounded
query. -/
def engAuto : LiquidityEngine :=
  { getVisibleSlices := fun _ a _ => if a = 0 then [afSlice] else [],
    suggestTimeframe := fun _ _ _ => 100 }

/-- Concrete processor state for the C4 witness. -/
def afState : DPState := { baseDP with viewState := some afVS }

/-- Witness for C4 at a concrete input: viewport at 100 s, newest data ending
at 10 s, auto-scroll on — the viewport snaps to [−20 s, +40 s] around the
newest data and exactly three queries are made. -/
theorem uvc_autofit_viewport_witness :
    (updateVisibleCells engAuto afState).1.viewState =
      some (afVS.setViewport (afSlice.endTime_ms - 30000) (afSlice.endTime_ms + 30000)
        afVS.minPrice afVS.maxPrice) ∧
    sliceQueries (updateVisibleCells engAuto afState).2 =
      [(activeTimeframeOf engAuto afVS afState, afVS.timeStart_ms, afVS.timeEnd_ms),
       (activeTimeframeOf engAuto afVS afState, 0, LLONG_MAX),
       (activeTimeframeOf engAuto afVS afState, afSlice.endTime_ms - 30000,
        afSlice.endTime_ms + 30000)] :=
  (uvc_autofit_viewport engAuto afState afVS afSlice rfl rfl rfl rfl rfl).1 rfl rfl
    (by decide)

/-! ### Claims C1 and C2 -/

/-- Projection of the `DPState` fields that the slice walk never touches,
used to carry preservation facts through the folds. -/
def frameA (st : DPState) :
    Bool × Bool × Option GridViewState × Option (List CellInstance) × Int × Nat ×
      Bool × Bool × Int :=
  (st.shuttingDown, st.hasEngine, st.viewState, st.publishedCells,
   st.currentTimeframe_ms, st.lastViewportVersion, st.manualTimeframeSet,
   st.manualTimerValid, st.manualElapsed_ms)

lemma processSliceAppend_frameA (vs : GridViewState) (s : DPState)
    (sl : LiquidityTimeSlice) : frameA (processSliceAppend vs s sl) = frameA s := by
  simp only [processSliceAppend, insertRange, frameA]
  split <;> split <;> rfl

lemma processSliceRebuild_frameA (vs : GridViewState) (s : DPState)
    (sl : LiquidityTimeSlice) : frameA (processSliceRebuild vs s sl) = frameA s := by
  simp only [processSliceRebuild, insertRange, frameA]
  split <;> rfl

lemma uvcProcess_frameA (vs : GridViewState) (fr : Bool)
    (slices : List LiquidityTimeSlice) (s : DPState) :
    frameA (uvcProcess vs fr slices s) = frameA s := by
  unfold uvcProcess
  split
  · exact foldl_preserve _ frameA (processSliceRebuild_frameA vs) slices _
  · exact foldl_preserve _ frameA (processSliceAppend_frameA vs) slices _

lemma uvcProcess_lastProcessedTime (vs : GridViewState) (fr : Bool)
    (slices : List LiquidityTimeSlice) (s : DPState) :
    (uvcProcess vs fr slices s).lastProcessedTime =
      slices.foldl (fun a sl => max a sl.endTime_ms) s.lastProcessedTime := by
  unfold uvcProcess
  split
  · exact foldl_lastProcessedTime _ (processSliceRebuild_lastProcessedTime vs) slices _
  · exact foldl_lastProcessedTime _ (processSliceAppend_lastProcessedTime vs) slices _

lemma uvcProcess_ranges_mem (vs : GridViewState) (fr : Bool)
    (slices : List LiquidityTimeSlice) (s : DPState) :
    ∀ sl ∈ slices, sliceRange sl ∈ (uvcProcess vs fr slices s).processedTimeRanges := by
  unfold uvcProcess
  split
  · exact foldl_ranges_mem _ (processSliceRebuild_ranges_superset vs)
      (processSliceRebuild_ranges_mem vs) slices _
  · exact foldl_ranges_mem _ (processSliceAppend_ranges_superset vs)
      (processSliceAppend_ranges_mem vs) slices _

lemma activeTimeframeOf_stable (eng : LiquidityEngine) (vs : GridViewState)
    {s' s : DPState}
    (hm : s'.manualTimeframeSet = s.manualTimeframeSet)
    (htv : s'.manualTimerValid = s.manualTimerValid)
    (hel : s'.manualElapsed_ms = s.manualElapsed_ms)
    (he : s'.hasEngine = s.hasEngine)
    (hc : s'.currentTimeframe_ms = activeTimeframeOf eng vs s) :
    activeTimeframeOf eng vs s' = activeTimeframeOf eng vs s := by
  unfold activeTimeframeOf autoTfBranch at hc ⊢
  rw [hm, htv, hel, he]
  split at hc
  · rename_i h
    simp [h]
  · rename_i h
    simp [h, hc]

lemma uvc_append_noop (eng : LiquidityEngine) (s : DPState) (vs : GridViewState)
    (hsd : s.shuttingDown = false) (hvs : s.viewState = some vs)
    (hvalid : vs.isTimeWindowValid = true)
    (hver : vs.version = s.lastViewportVersion)
    (hlpt : s.lastProcessedTime ≠ 0) (heng : s.hasEngine = true)
    (hne : eng.getVisibleSlices (activeTimeframeOf eng vs s) vs.timeStart_ms
      vs.timeEnd_ms ≠ [])
    (hall : ∀ sl ∈ eng.getVisibleSlices (activeTimeframeOf eng vs s) vs.timeStart_ms
      vs.timeEnd_ms, sliceRange sl ∈ s.processedTimeRanges) :
    (updateVisibleCells eng s).1.visibleCells = s.visibleCells ∧
    (updateVisibleCells eng s).1.processedTimeRanges = s.processedTimeRanges ∧
    (updateVisibleCells eng s).1.publishedCells = s.publishedCells ∧
    DPEvent.dataUpdated ∉ (updateVisibleCells eng s).2 := by
  have hfold := foldl_append_no_new vs
    (eng.getVisibleSlices (activeTimeframeOf eng vs s) vs.timeStart_ms vs.timeEnd_ms)
    { s with currentTimeframe_ms := activeTimeframeOf eng vs s } (by exact hall)
  have hframe := uvcProcess_frameA vs false
    (eng.getVisibleSlices (activeTimeframeOf eng vs s) vs.timeStart_ms vs.timeEnd_ms)
    { s with currentTimeframe_ms := activeTimeframeOf eng vs s }
  simp only [uvcProcess, Bool.false_eq_true, if_false] at hframe
  simp only [uvc_main_eq eng s vs hsd hvs hvalid heng,
    uvcQueryAndFix_of_ne_nil eng _ vs _ hne, hver, ne_eq, not_true_eq_false,
    decide_False, Bool.false_eq_true, if_false, Bool.false_or, hlpt,
    decide_eq_false_iff_not, uvcProcess]
  rw [if_neg (by simp [hfold.1])]
  refine ⟨hfold.1, hfold.2, ?_, ?_⟩
  · have := congrArg (fun p => p.2.2.2.1) hframe
    simpa [frameA] using this
  · intro hmem
    rcases List.mem_append.mp hmem with hmem | hmem
    · revert hmem
      split <;> simp
    · simp at hmem


lemma uvcProcess_lastViewportVersion (vs : GridViewState) (fr : Bool)
    (slices : List LiquidityTimeSlice) (s : DPState) :
    (uvcProcess vs fr slices s).lastViewportVersion = s.lastViewportVersion :=
  congrArg (fun p => p.2.2.2.2.2.1) (uvcProcess_frameA vs fr slices s)

lemma uvcProcess_currentTimeframe (vs : GridViewState) (fr : Bool)
    (slices : List LiquidityTimeSlice) (s : DPState) :
    (uvcProcess vs fr slices s).currentTimeframe_ms = s.currentTimeframe_ms :=
  congrArg (fun p => p.2.2.2.2.1) (uvcProcess_frameA vs fr slices s)

lemma uvc_call1_facts (eng : LiquidityEngine) (s : DPState) (vs : GridViewState)
    (hsd : s.shuttingDown = false) (hvs : s.viewState = some vs)
    (hvalid : vs.isTimeWindowValid = true) (heng : s.hasEngine = true)
    (hne : eng.getVisibleSlices (activeTimeframeOf eng vs s) vs.timeStart_ms
      vs.timeEnd_ms ≠ [])
    (hpos : ∀ sl ∈ eng.getVisibleSlices (activeTimeframeOf eng vs s) vs.timeStart_ms
      vs.timeEnd_ms, 0 < sl.endTime_ms) :
    (updateVisibleCells eng s).1.viewState = some vs ∧
    (updateVisibleCells eng s).1.lastViewportVersion = vs.version ∧
    (updateVisibleCells eng s).1.lastProcessedTime ≠ 0 ∧
    (updateVisibleCells eng s).1.currentTimeframe_ms = activeTimeframeOf eng vs s ∧
    (∀ sl ∈ eng.getVisibleSlices (activeTimeframeOf eng vs s) vs.timeStart_ms
      vs.timeEnd_ms, sliceRange sl ∈ (updateVisibleCells eng s).1.processedTimeRanges) := by
  simp only [uvc_main_eq eng s vs hsd hvs hvalid heng,
    uvcQueryAndFix_of_ne_nil eng _ vs _ hne]
  refine ⟨?_, ?_, ?_, ?_, ?_⟩
  · repeat' split
    all_goals simp [uvcProcess_viewState, hvs]
  · repeat' split
    all_goals simp_all [uvcProcess_lastViewportVersion]
  · repeat' split
    all_goals
      (rw [uvcProcess_lastProcessedTime]
       exact ne_of_gt (foldl_max_pos _ _ hne hpos))
  · repeat' split
    all_goals simp [uvcProcess_currentTimeframe]
  · repeat' split
    all_goals
      (intro sl hsl
       exact uvcProcess_ranges_mem _ _ _ _ sl hsl)

lemma uvcProcess_shuttingDown (vs : GridViewState) (fr : Bool)
    (slices : List LiquidityTimeSlice) (s : DPState) :
    (uvcProcess vs fr slices s).shuttingDown = s.shuttingDown :=
  congrArg (fun p => p.1) (uvcProcess_frameA vs fr slices s)

lemma uvcProcess_hasEngine (vs : GridViewState) (fr : Bool)
    (slices : List LiquidityTimeSlice) (s : DPState) :
    (uvcProcess vs fr slices s).hasEngine = s.hasEngine :=
  congrArg (fun p => p.2.1) (uvcProcess_frameA vs fr slices s)

lemma uvcProcess_manualTimeframeSet (vs : GridViewState) (fr : Bool)
    (slices : List LiquidityTimeSlice) (s : DPState) :
    (uvcProcess vs fr slices s).manualTimeframeSet = s.manualTimeframeSet :=
  congrArg (fun p => p.2.2.2.2.2.2.1) (uvcProcess_frameA vs fr slices s)

lemma uvcProcess_manualTimerValid (vs : GridViewState) (fr : Bool)
    (slices : List LiquidityTimeSlice) (s : DPState) :
    (uvcProcess vs fr slices s).manualTimerValid = s.manualTimerValid :=
  congrArg (fun p => p.2.2.2.2.2.2.2.1) (uvcProcess_frameA vs fr slices s)

lemma uvcProcess_manualElapsed (vs : GridViewState) (fr : Bool)
    (slices : List LiquidityTimeSlice) (s : DPState) :
    (uvcProcess vs fr slices s).manualElapsed_ms = s.manualElapsed_ms :=
  congrArg (fun p => p.2.2.2.2.2.2.2.2) (uvcProcess_frameA vs fr slices s)

lemma uvcProcess_publishedCells (vs : GridViewState) (fr : Bool)
    (slices : List LiquidityTimeSlice) (s : DPState) :
    (uvcProcess vs fr slices s).publishedCells = s.publishedCells :=
  congrArg (fun p => p.2.2.2.1) (uvcProcess_frameA vs fr slices s)

lemma uvcQueryAndFix_shuttingDown (eng : LiquidityEngine) (tf : Int)
    (vs : GridViewState) (s : DPState) :
    (uvcQueryAndFix eng tf vs s).2.1.shuttingDown = s.shuttingDown := by
  unfold uvcQueryAndFix
  dsimp only
  repeat' split
  all_goals rfl

lemma uvcQueryAndFix_hasEngine (eng : LiquidityEngine) (tf : Int)
    (vs : GridViewState) (s : DPState) :
    (uvcQueryAndFix eng tf vs s).2.1.hasEngine = s.hasEngine := by
  unfold uvcQueryAndFix
  dsimp only
  repeat' split
  all_goals rfl

lemma uvcQueryAndFix_manualTimeframeSet (eng : LiquidityEngine) (tf : Int)
    (vs : GridViewState) (s : DPState) :
    (uvcQueryAndFix eng tf vs s).2.1.manualTimeframeSet = s.manualTimeframeSet := by
  unfold uvcQueryAndFix
  dsimp only
  repeat' split
  all_goals rfl

lemma uvcQueryAndFix_manualTimerValid (eng : LiquidityEngine) (tf : Int)
    (vs : GridViewState) (s : DPState) :
    (uvcQueryAndFix eng tf vs s).2.1.manualTimerValid = s.manualTimerValid := by
  unfold uvcQueryAndFix
  dsimp only
  repeat' split
  all_goals rfl

lemma uvcQueryAndFix_manualElapsed (eng : LiquidityEngine) (tf : Int)
    (vs : GridViewState) (s : DPState) :
    (uvcQueryAndFix eng tf vs s).2.1.manualElapsed_ms = s.manualElapsed_ms := by
  unfold uvcQueryAndFix
  dsimp only
  repeat' split
  all_goals rfl

lemma uvc_frame_preserved (eng : LiquidityEngine) (s : DPState) :
    (updateVisibleCells eng s).1.shuttingDown = s.shuttingDown ∧
    (updateVisibleCells eng s).1.hasEngine = s.hasEngine ∧
    (updateVisibleCells eng s).1.manualTimeframeSet = s.manualTimeframeSet ∧
    (updateVisibleCells eng s).1.manualTimerValid = s.manualTimerValid ∧
    (updateVisibleCells eng s).1.manualElapsed_ms = s.manualElapsed_ms := by
  unfold updateVisibleCells
  split
  · exact ⟨rfl, rfl, rfl, rfl, rfl⟩
  · split
    · exact ⟨rfl, rfl, rfl, rfl, rfl⟩
    · split
      · exact ⟨rfl, rfl, rfl, rfl, rfl⟩
      · simp only [uvcTimeframe_eq]
        repeat' split
        all_goals
          refine ⟨?_, ?_, ?_, ?_, ?_⟩ <;>
            simp [uvcProcess_shuttingDown, uvcProcess_hasEngine,
              uvcProcess_manualTimeframeSet, uvcProcess_manualTimerValid,
              uvcProcess_manualElapsed, uvcQueryAndFix_shuttingDown,
              uvcQueryAndFix_hasEngine, uvcQueryAndFix_manualTimeframeSet,
              uvcQueryAndFix_manualTimerValid, uvcQueryAndFix_manualElapsed]


/-- Claim C1: on the incremental (append) path of `updateVisibleCells` —
viewport version unchanged and last-processed time non-zero — a slice is
processed (its cells created and its (start, end) value pair recorded) if and
only if that pair is not already in the processed-range tracking set: a
tracked slice contributes only a high-water-mark update, an untracked one
appends its cells and records its range; consequently, when the engine
returns only slices whose ranges are already tracked (as with reused slice
storage, identified by value, never by identity), the call adds zero new
cells. -/
theorem uvc_append_processes_iff_new_range :
    (∀ (vs : GridViewState) (s : DPState) (sl : LiquidityTimeSlice),
      (sliceRange sl ∈ s.processedTimeRanges →
        processSliceAppend vs s sl =
          { s with lastProcessedTime := max s.lastProcessedTime sl.endTime_ms }) ∧
      (sliceRange sl ∉ s.processedTimeRanges →
        (processSliceAppend vs s sl).visibleCells =
          createCellsFromLiquiditySlice vs s.currentTimeframe_ms sl s.visibleCells ∧
        (processSliceAppend vs s sl).processedTimeRanges =
          sliceRange sl :: s.processedTimeRanges)) ∧
    (∀ (eng : LiquidityEngine) (s : DPState) (vs : GridViewState),
      s.shuttingDown = false → s.viewState = some vs → vs.isTimeWindowValid = true →
      vs.version = s.lastViewportVersion → s.lastProcessedTime ≠ 0 →
      s.hasEngine = true →
      eng.getVisibleSlices (activeTimeframeOf eng vs s) vs.timeStart_ms
        vs.timeEnd_ms ≠ [] →
      (∀ sl ∈ eng.getVisibleSlices (activeTimeframeOf eng vs s) vs.timeStart_ms
        vs.timeEnd_ms, sliceRange sl ∈ s.processedTimeRanges) →
      (updateVisibleCells eng s).1.visibleCells = s.visibleCells ∧
      (updateVisibleCells eng s).1.processedTimeRanges = s.processedTimeRanges) := by
  constructor
  · intro vs s sl
    exact ⟨processSliceAppend_of_mem vs s sl, processSliceAppend_of_not_mem vs s sl⟩
  · intro eng s vs hsd hvs hvalid hver hlpt heng hne hall
    have h := uvc_append_noop eng s vs hsd hvs hvalid hver hlpt heng hne hall
    exact ⟨h.1, h.2.1⟩

/-- Concrete valid viewport for the C1/C2 witnesses. -/
def vsC1 : GridViewState :=
  { timeStart_ms := 0, timeEnd_ms := 100000, minPrice := 0, maxPrice := 200,
    version := 7, autoScrollEnabled := true, timeWindowInit := true }

/-- Concrete slice with one populated bid level for the C1/C2 witnesses. -/
def slC1 : LiquidityTimeSlice :=
  { startTime_ms := 1000, endTime_ms := 1100, duration_ms := 100, tickSize := 1,
    minTick := 100, bidMetrics := [{ snapshotCount := 1, displayValue := 5 }],
    askMetrics := [] }

/-- Concrete engine that always returns the same slice, for the C1/C2
witnesses. -/
def engC1 : LiquidityEngine :=
  { getVisibleSlices := fun _ _ _ => [slC1], suggestTimeframe := fun _ _ _ => 100 }

/-- Concrete state whose tracking set already holds the slice range, for the
C1 witness. -/
def sC1 : DPState :=
  { baseDP with
      viewState := some vsC1, lastViewportVersion := 7,
      lastProcessedTime := 1100, processedTimeRanges := [(1000, 1100)] }

/-- Witness for C1 at a concrete input: the engine re-serves an
already-tracked slice and the call adds zero new cells. -/
theorem uvc_append_processes_iff_new_range_witness :
    (updateVisibleCells engC1 sC1).1.visibleCells = sC1.visibleCells ∧
    (updateVisibleCells engC1 sC1).1.processedTimeRanges = sC1.processedTimeRanges :=
  uvc_append_processes_iff_new_range.2 engC1 sC1 vsC1 rfl rfl rfl rfl (by decide) rfl
    (by simp [engC1]) (by decide)

/-- Claim C2: calling `updateVisibleCells` twice with no intervening
viewport-version change and the engine returning the same (post-epoch) slices
leaves the working cell list identical on the second call, which skips
publishing: the published snapshot is not replaced and no data-updated
notification is emitted. -/
theorem uvc_second_call_skips_publish :
    ∀ (eng : LiquidityEngine) (s : DPState) (vs : GridViewState),
      s.shuttingDown = false → s.viewState = some vs → vs.isTimeWindowValid = true →
      s.hasEngine = true →
      eng.getVisibleSlices (activeTimeframeOf eng vs s) vs.timeStart_ms
        vs.timeEnd_ms ≠ [] →
      (∀ sl ∈ eng.getVisibleSlices (activeTimeframeOf eng vs s) vs.timeStart_ms
        vs.timeEnd_ms, 0 < sl.endTime_ms) →
      (updateVisibleCells eng (updateVisibleCells eng s).1).1.visibleCells =
        (updateVisibleCells eng s).1.visibleCells ∧
      (updateVisibleCells eng (updateVisibleCells eng s).1).1.publishedCells =
        (updateVisibleCells eng s).1.publishedCells ∧
      DPEvent.dataUpdated ∉ (updateVisibleCells eng (updateVisibleCells eng s).1).2 := by
  intro eng s vs hsd hvs hvalid heng hne hpos
  obtain ⟨f2, f4, f5, f9, f10⟩ := uvc_call1_facts eng s vs hsd hvs hvalid heng hne hpos
  obtain ⟨g1, g3, g6, g7, g8⟩ := uvc_frame_preserved eng s
  have htf : activeTimeframeOf eng vs (updateVisibleCells eng s).1 =
      activeTimeframeOf eng vs s :=
    activeTimeframeOf_stable eng vs g6 g7 g8 g3 f9
  have hne1 : eng.getVisibleSlices (activeTimeframeOf eng vs (updateVisibleCells eng s).1)
      vs.timeStart_ms vs.timeEnd_ms ≠ [] := by rw [htf]; exact hne
  have hall1 : ∀ sl ∈ eng.getVisibleSlices
      (activeTimeframeOf eng vs (updateVisibleCells eng s).1) vs.timeStart_ms
      vs.timeEnd_ms, sliceRange sl ∈ (updateVisibleCells eng s).1.processedTimeRanges := by
    rw [htf]; exact f10
  have key := uvc_append_noop eng (updateVisibleCells eng s).1 vs (g1.trans hsd) f2
    hvalid f4.symm f5 (g3.trans heng) hne1 hall1
  exact ⟨key.1, key.2.2.1, key.2.2.2⟩

/-- Concrete fresh state (nothing processed yet) for the C2 witness. -/
def sC2 : DPState := { baseDP with viewState := some vsC1, lastViewportVersion := 7 }

/-- Witness for C2 at a concrete input: after a first call that processes
one slice, the second call changes nothing and publishes nothing. -/
theorem uvc_second_call_skips_publish_witness :
    (updateVisibleCells engC1 (updateVisibleCells engC1 sC2).1).1.visibleCells =
      (updateVisibleCells engC1 sC2).1.visibleCells ∧
    (updateVisibleCells engC1 (updateVisibleCells engC1 sC2).1).1.publishedCells =
      (updateVisibleCells engC1 sC2).1.publishedCells ∧
    DPEvent.dataUpdated ∉ (updateVisibleCells engC1 (updateVisibleCells engC1 sC2).1).2 :=
  uvc_second_call_skips_publish engC1 sC2 vsC1 rfl rfl rfl rfl (by simp [engC1])
    (by decide)

end Sentinel
